import Mathlib

/-!
# GSM modem sample (`src/main.c`): session commands, event handler and boot procedure

The C file keeps one global flag (`starting`) and talks to four external
collaborators (shell, PPP driver, GPIO driver, network management).  The
embedding threads an explicit `World` holding the flag and the ordered trace of
the calls made to those collaborators.
-/

namespace GsmModem

/-- Build-time values `main.c` takes from headers, Kconfig and devicetree that
are not part of the repository.  They are parameters of every definition. -/
structure BuildConfig where
  /-- The errno value `ENOEXEC` (from `errno.h`). -/
  ENOEXEC : Nat
  /-- The event code `NET_EVENT_L4_CONNECTED` (from `net/net_event.h`). -/
  NET_EVENT_L4_CONNECTED : Nat
  /-- The event code `NET_EVENT_L4_DISCONNECTED` (from `net/net_event.h`). -/
  NET_EVENT_L4_DISCONNECTED : Nat
  /-- The value of `IS_ENABLED(CONFIG_GSM_PPP_AUTOSTART)`. -/
  CONFIG_GSM_PPP_AUTOSTART : Bool
  /-- The string `CONFIG_BOARD`. -/
  CONFIG_BOARD : String
  /-- The string `CONFIG_MODEM_GSM_APN`. -/
  CONFIG_MODEM_GSM_APN : String
  /-- The address of `DEVICE_DT_GET(UART_NODE)`. -/
  uart_dev : Nat
  /-- The field `uart_dev->name`. -/
  uart_dev_name : String
  /-- The field `gsm_dev->name`. -/
  gsm_dev_name : String
deriving DecidableEq

/-- The two devicetree aliases whose `gpios` property `main` uses. -/
inductive Line where
  | simselect
  | modemon
deriving DecidableEq

/-- The initial-level part of the flags given to `gpio_pin_configure`; the other
part, `DT_GPIO_FLAGS` of the line, is determined by the line. -/
inductive GpioInit where
  | GPIO_OUTPUT_LOW
  | GPIO_OUTPUT_HIGH
deriving DecidableEq

/-- An argument of a `printk` format string. -/
inductive PrintkArg where
  | int (v : Int)
  | str (s : String)
  | ptr (p : Nat)
deriving DecidableEq

/-- One call made by `main.c` to an external collaborator.  GPIO calls carry the
device handle they are made on and the line whose pin they address. -/
inductive Call where
  | shell_fprintf (msg : String)
  | gsm_ppp_stop
  | gsm_ppp_start
  | printk (fmt : String) (args : List PrintkArg)
  | device_get_binding (l : Line)
  | gpio_pin_configure (dev : Nat) (l : Line) (init : GpioInit)
  | gpio_pin_set (dev : Nat) (l : Line) (value : Int)
  | k_msleep (ms : Int)
  | net_mgmt_init_event_callback (mask : Nat)
  | net_mgmt_add_event_callback
deriving DecidableEq

/-- The mutable state of the program: the global `starting` and the calls made
so far, oldest first. -/
structure World where
  starting : Bool
  trace : List Call
deriving DecidableEq

/-- Append one call to the trace. -/
def World.emit (w : World) (c : Call) : World :=
  { w with trace := w.trace ++ [c] }

/-- The state at program start: `starting = IS_ENABLED(CONFIG_GSM_PPP_AUTOSTART)`
(line 29), nothing called yet. -/
def initial (K : BuildConfig) : World :=
  { starting := K.CONFIG_GSM_PPP_AUTOSTART, trace := [] }

/-- The function `cmd_sample_modem_suspend` (lines 31-46). -/
def cmd_sample_modem_suspend (K : BuildConfig) (w : World) : Int × World :=
  if !w.starting then
    (-(K.ENOEXEC : Int), w.emit (Call.shell_fprintf "Modem is already stopped.\n"))
  else
    let w1 := w.emit Call.gsm_ppp_stop
    let w2 := { w1 with starting := false }
    (0, w2)

/-- The function `cmd_sample_modem_resume` (lines 48-63). -/
def cmd_sample_modem_resume (K : BuildConfig) (w : World) : Int × World :=
  if w.starting then
    (-(K.ENOEXEC : Int), w.emit (Call.shell_fprintf "Modem is already started.\n"))
  else
    let w1 := w.emit Call.gsm_ppp_start
    let w2 := { w1 with starting := true }
    (0, w2)

/-- The two sub-commands registered in `sample_commands` (lines 65-73). -/
inductive Cmd where
  | resume
  | suspend
deriving DecidableEq

/-- The handler the shell runs for a sub-command. -/
def Cmd.handler (K : BuildConfig) : Cmd → World → Int × World
  | Cmd.resume => cmd_sample_modem_resume K
  | Cmd.suspend => cmd_sample_modem_suspend K

/-- Run the handlers of a list of commands one after another; the result is the
list of return codes and the final state. -/
def runCmds (K : BuildConfig) : List Cmd → World → List Int × World
  | [], w => ([], w)
  | c :: cs, w =>
    let r := c.handler K w
    let rest := runCmds K cs r.2
    (r.1 :: rest.1, rest.2)

/-- The function `event_handler` (lines 79-99); `mgmt_event` is a `uint32_t`. -/
def event_handler (K : BuildConfig) (mgmt_event : Nat) (w : World) : World :=
  if (mgmt_event &&& (K.NET_EVENT_L4_CONNECTED ||| K.NET_EVENT_L4_DISCONNECTED))
      ≠ mgmt_event then
    w
  else if mgmt_event = K.NET_EVENT_L4_CONNECTED then
    w.emit (Call.printk "Network connected" [])
  else if mgmt_event = K.NET_EVENT_L4_DISCONNECTED then
    w.emit (Call.printk "Network disconnected" [])
  else
    w

/-- Deliver a list of events to `event_handler`, in order. -/
def deliver (K : BuildConfig) (events : List Nat) (w : World) : World :=
  events.foldl (fun acc ev => event_handler K ev acc) w

/-- What the external calls made by `main` return: the two device bindings
(`none` is `NULL`) and the results of the GPIO calls.  `main` discards the
results of `gpio_pin_set`, so the two `set_ret` fields are never read. -/
structure BootEnv where
  sim_select_binding : Option Nat
  sim_select_configure_ret : Int
  sim_select_set_ret : Int
  modemon_binding : Option Nat
  modemon_configure_ret : Int
  modemon_set_ret : Int
deriving DecidableEq

/-- Lines 155-211 of `main`: the modem-enable line, the delay and the
registration of the event callback. -/
def main_modemon (K : BuildConfig) (env : BootEnv) (w : World) : Int × World :=
  let modemon_gpio_dev := env.modemon_binding
  let w := w.emit (Call.device_get_binding Line.modemon)
  match modemon_gpio_dev with
  | none => (0, w.emit (Call.printk "MODEM ON: Device driver not found.\n" []))
  | some dev =>
    let ret := env.modemon_configure_ret
    let w := w.emit (Call.gpio_pin_configure dev Line.modemon GpioInit.GPIO_OUTPUT_HIGH)
    let w := if ret < 0 then
        w.emit (Call.printk "Error setting modem on pin to output mode [%d]" [PrintkArg.int ret])
      else w
    match modemon_gpio_dev with
    | none => (0, w.emit (Call.printk "No MODEM ON GPIO device\n" []))
    | some dev =>
      let w := w.emit (Call.gpio_pin_set dev Line.modemon 1)
      let w := w.emit (Call.printk "\n\n\t\t Modem ON\n\n" [])
      let w := w.emit (Call.k_msleep 5000)
      let w := w.emit (Call.printk "Board '%s' APN '%s' UART '%s' device %p (%s)"
        [PrintkArg.str K.CONFIG_BOARD, PrintkArg.str K.CONFIG_MODEM_GSM_APN,
         PrintkArg.str K.uart_dev_name, PrintkArg.ptr K.uart_dev,
         PrintkArg.str K.gsm_dev_name])
      let w := w.emit (Call.net_mgmt_init_event_callback
        (K.NET_EVENT_L4_CONNECTED ||| K.NET_EVENT_L4_DISCONNECTED))
      let w := w.emit Call.net_mgmt_add_event_callback
      (0, w)

/-- The function `main` (lines 117-212).  The second `NULL` test of each device
(lines 144 and 176) is kept as in the source. -/
def main (K : BuildConfig) (env : BootEnv) (w : World) : Int × World :=
  let sim_select_gpio_dev := env.sim_select_binding
  let w := w.emit (Call.device_get_binding Line.simselect)
  match sim_select_gpio_dev with
  | none => (0, w.emit (Call.printk "SIM: Device driver not found.\n" []))
  | some dev =>
    let ret := env.sim_select_configure_ret
    let w := w.emit (Call.gpio_pin_configure dev Line.simselect GpioInit.GPIO_OUTPUT_LOW)
    let w := if ret < 0 then
        w.emit (Call.printk "Error setting sim pin to output mode [%d]" [PrintkArg.int ret])
      else w
    match sim_select_gpio_dev with
    | none => (0, w.emit (Call.printk "No MODEM ON GPIO device\n" []))
    | some dev =>
      let w := w.emit (Call.gpio_pin_set dev Line.simselect 0)
      main_modemon K env w

/-- The state once `main` has run from the initial state. -/
def boot (K : BuildConfig) (env : BootEnv) : World :=
  (main K env (initial K)).2

/-- A call to the network stack's session control. -/
def Call.isSession : Call → Bool
  | Call.gsm_ppp_start => true
  | Call.gsm_ppp_stop => true
  | _ => false

/-- A GPIO configure or set on the given line. -/
def Call.isGpioOn (l : Line) : Call → Bool
  | Call.gpio_pin_configure _ l1 _ => l1 == l
  | Call.gpio_pin_set _ l1 _ => l1 == l
  | _ => false

/-- A GPIO configure or set on any line. -/
def Call.isGpio (c : Call) : Bool :=
  c.isGpioOn Line.simselect || c.isGpioOn Line.modemon

/-- A call to `k_msleep`. -/
def Call.isDelay : Call → Bool
  | Call.k_msleep _ => true
  | _ => false

/-- A call that sets up or registers the network event callback. -/
def Call.isRegistration : Call → Bool
  | Call.net_mgmt_init_event_callback _ => true
  | Call.net_mgmt_add_event_callback => true
  | _ => false

/-- The build of the Zephyr tree the sample is written against: `ENOEXEC` is 8,
the L4 event codes are `0xF1140001` and `0xF1140002`, autostart enabled. -/
def zephyr : BuildConfig :=
  { ENOEXEC := 8
    NET_EVENT_L4_CONNECTED := 0xF1140001
    NET_EVENT_L4_DISCONNECTED := 0xF1140002
    CONFIG_GSM_PPP_AUTOSTART := true
    CONFIG_BOARD := "board"
    CONFIG_MODEM_GSM_APN := "internet"
    uart_dev := 1
    uart_dev_name := "UART_1"
    gsm_dev_name := "modem_gsm" }

/-- The session call a command makes when it is accepted. -/
def Cmd.call : Cmd → Call
  | Cmd.resume => Call.gsm_ppp_start
  | Cmd.suspend => Call.gsm_ppp_stop

/-- The session calls of the accepted commands (return code 0) of a run, given
the commands and their return codes. -/
def successCalls (cs : List Cmd) (rets : List Int) : List Call :=
  (cs.zip rets).filterMap (fun p => if p.2 = 0 then some p.1.call else none)

/-- The build `zephyr` with autostart disabled. -/
def zephyrNoAutostart : BuildConfig :=
  { zephyr with CONFIG_GSM_PPP_AUTOSTART := false }

/-- A boot in which both devices are bound (handles 1 and 2) and every GPIO call
returns 0. -/
def envAllOk : BootEnv :=
  { sim_select_binding := some 1
    sim_select_configure_ret := 0
    sim_select_set_ret := 0
    modemon_binding := some 2
    modemon_configure_ret := 0
    modemon_set_ret := 0 }

/-- A boot in which configuring the SIM-select pin returns -5 (`-EIO`). -/
def envSimConfigureFails : BootEnv :=
  { envAllOk with sim_select_configure_ret := -5 }

/-- A boot in which configuring the modem-enable pin returns -5 (`-EIO`). -/
def envModemonConfigureFails : BootEnv :=
  { envAllOk with modemon_configure_ret := -5 }

/-- A boot in which the SIM-select GPIO device is not bound. -/
def envSimNotFound : BootEnv :=
  { envAllOk with sim_select_binding := none }

/-- A boot in which the modem-enable GPIO device is not bound. -/
def envModemonNotFound : BootEnv :=
  { envAllOk with modemon_binding := none }

/-- The report the specification asks for on an event: "Network connected" for
the connect code, "Network disconnected" for the disconnect code, nothing for
any other value.  It is compared with `event_handler`. -/
def specReport (K : BuildConfig) (ev : Nat) : Option Call :=
  if ev = K.NET_EVENT_L4_CONNECTED then some (Call.printk "Network connected" [])
  else if ev = K.NET_EVENT_L4_DISCONNECTED then some (Call.printk "Network disconnected" [])
  else none

/-! ## Lemmas on the command handlers -/

theorem resume_running (K : BuildConfig) (t : List Call) :
    cmd_sample_modem_resume K (World.mk true t) =
      (-(K.ENOEXEC : Int),
        World.mk true (t ++ [Call.shell_fprintf "Modem is already started.\n"])) := rfl

theorem resume_stopped (K : BuildConfig) (t : List Call) :
    cmd_sample_modem_resume K (World.mk false t) =
      (0, World.mk true (t ++ [Call.gsm_ppp_start])) := rfl

theorem suspend_running (K : BuildConfig) (t : List Call) :
    cmd_sample_modem_suspend K (World.mk true t) =
      (0, World.mk false (t ++ [Call.gsm_ppp_stop])) := rfl

theorem suspend_stopped (K : BuildConfig) (t : List Call) :
    cmd_sample_modem_suspend K (World.mk false t) =
      (-(K.ENOEXEC : Int),
        World.mk false (t ++ [Call.shell_fprintf "Modem is already stopped.\n"])) := rfl

theorem neg_enoexec_ne_zero (K : BuildConfig) (hE : 0 < K.ENOEXEC) :
    -(K.ENOEXEC : Int) ≠ 0 := by
  omega

theorem successCalls_cons (c : Cmd) (cs : List Cmd) (r : Int) (rs : List Int) :
    successCalls (c :: cs) (r :: rs) =
      if r = 0 then c.call :: successCalls cs rs else successCalls cs rs := by
  unfold successCalls
  by_cases h : r = 0 <;> simp [h]

theorem runCmds_cons (K : BuildConfig) (c : Cmd) (cs : List Cmd) (w : World) :
    runCmds K (c :: cs) w =
      ((c.handler K w).1 :: (runCmds K cs (c.handler K w).2).1,
        (runCmds K cs (c.handler K w).2).2) := rfl

theorem runCmds_length (K : BuildConfig) (cs : List Cmd) (w : World) :
    (runCmds K cs w).1.length = cs.length := by
  induction cs generalizing w with
  | nil => rfl
  | cons c cs ih => simp [runCmds_cons, ih]

theorem filter_session_append_start (t : List Call) :
    (t ++ [Call.gsm_ppp_start]).filter Call.isSession =
      t.filter Call.isSession ++ [Call.gsm_ppp_start] := by
  rw [List.filter_append]; rfl

theorem filter_session_append_stop (t : List Call) :
    (t ++ [Call.gsm_ppp_stop]).filter Call.isSession =
      t.filter Call.isSession ++ [Call.gsm_ppp_stop] := by
  rw [List.filter_append]; rfl

theorem filter_session_append_fprintf (t : List Call) (m : String) :
    (t ++ [Call.shell_fprintf m]).filter Call.isSession = t.filter Call.isSession := by
  rw [List.filter_append]
  simp [Call.isSession]

theorem runCmds_session (K : BuildConfig) (hE : 0 < K.ENOEXEC) (cs : List Cmd) (w : World) :
    (runCmds K cs w).2.trace.filter Call.isSession =
      w.trace.filter Call.isSession ++ successCalls cs (runCmds K cs w).1 := by
  have hne := neg_enoexec_ne_zero K hE
  induction cs generalizing w with
  | nil => simp [runCmds, successCalls]
  | cons c cs ih =>
    obtain ⟨b, t⟩ := w
    rw [runCmds_cons, successCalls_cons]
    simp only [ih]
    cases c <;> cases b
    · simp only [Cmd.handler, resume_stopped, filter_session_append_start, if_true, Cmd.call,
        List.append_assoc, List.singleton_append]
    · simp only [Cmd.handler, resume_running, filter_session_append_fprintf, hne, if_false]
    · simp only [Cmd.handler, suspend_stopped, filter_session_append_fprintf, hne, if_false]
    · simp only [Cmd.handler, suspend_running, filter_session_append_stop, if_true, Cmd.call,
        List.append_assoc, List.singleton_append]

theorem successCalls_head (K : BuildConfig) (hE : 0 < K.ENOEXEC) (cs : List Cmd) (w : World) :
    ∀ x ∈ (successCalls cs (runCmds K cs w).1).head?,
      x = if w.starting then Call.gsm_ppp_stop else Call.gsm_ppp_start := by
  have hne := neg_enoexec_ne_zero K hE
  induction cs generalizing w with
  | nil => intro x hx; simp [runCmds, successCalls] at hx
  | cons c cs ih =>
    obtain ⟨b, t⟩ := w
    rw [runCmds_cons, successCalls_cons]
    cases c <;> cases b
    · simp only [Cmd.handler, resume_stopped, if_true, Cmd.call, List.head?_cons,
        Option.mem_def, Option.some.injEq]
      intro x hx; simp [← hx]
    · simp only [Cmd.handler, resume_running, hne, if_false]
      exact ih _
    · simp only [Cmd.handler, suspend_stopped, hne, if_false]
      exact ih _
    · simp only [Cmd.handler, suspend_running, if_true, Cmd.call, List.head?_cons,
        Option.mem_def, Option.some.injEq]
      intro x hx; simp [← hx]

theorem successCalls_chain (K : BuildConfig) (hE : 0 < K.ENOEXEC) (cs : List Cmd) (w : World) :
    List.Chain' (fun a b => a ≠ b) (successCalls cs (runCmds K cs w).1) := by
  have hne := neg_enoexec_ne_zero K hE
  induction cs generalizing w with
  | nil => simp [runCmds, successCalls]
  | cons c cs ih =>
    obtain ⟨b, t⟩ := w
    rw [runCmds_cons, successCalls_cons]
    cases c <;> cases b
    · simp only [Cmd.handler, resume_stopped, if_true, Cmd.call]
      rw [List.chain'_cons']
      refine ⟨?_, ih _⟩
      intro y hy
      rw [successCalls_head K hE cs _ y hy]
      simp
    · simp only [Cmd.handler, resume_running, hne, if_false]
      exact ih _
    · simp only [Cmd.handler, suspend_stopped, hne, if_false]
      exact ih _
    · simp only [Cmd.handler, suspend_running, if_true, Cmd.call]
      rw [List.chain'_cons']
      refine ⟨?_, ih _⟩
      intro y hy
      rw [successCalls_head K hE cs _ y hy]
      simp

theorem runCmds_repeat (K : BuildConfig) (pre suf : List Cmd) (c : Cmd) (w : World) :
    (runCmds K (pre ++ c :: c :: suf) w).1[pre.length + 1]? = some (-(K.ENOEXEC : Int)) := by
  induction pre generalizing w with
  | nil =>
    obtain ⟨b, t⟩ := w
    cases c <;> cases b <;>
      simp [runCmds_cons, Cmd.handler, resume_running, resume_stopped, suspend_running,
        suspend_stopped]
  | cons p pre ih =>
    simpa [runCmds_cons] using ih (p.handler K w).2

theorem successCalls_length (K : BuildConfig) (cs : List Cmd) (w : World) :
    (successCalls cs (runCmds K cs w).1).length = (runCmds K cs w).1.count 0 := by
  induction cs generalizing w with
  | nil => simp [runCmds, successCalls]
  | cons c cs ih =>
    rw [runCmds_cons, successCalls_cons]
    by_cases h : (c.handler K w).1 = 0
    · simp [h, ih]
    · have h2 : ((c.handler K w).1 == 0) = false := by simpa using h
      simp [h, ih, List.count_cons, h2]

/-! ## The session commands (C1, C2, C3) -/

/-- C1 (idempotent rejection).  Whatever the trace so far, `resume` while the
flag is set returns `-ENOEXEC` (which is not 0), prints
"Modem is already started.", keeps the flag set and adds no call to
`gsm_ppp_start` or `gsm_ppp_stop`; `suspend` while the flag is clear returns
`-ENOEXEC`, prints "Modem is already stopped.", keeps the flag clear and adds no
such call either. -/
theorem idempotent_rejection (K : BuildConfig) (hE : 0 < K.ENOEXEC) (w : World) :
    (w.starting = true →
      (cmd_sample_modem_resume K w).1 = -(K.ENOEXEC : Int) ∧
      (cmd_sample_modem_resume K w).1 ≠ 0 ∧
      (cmd_sample_modem_resume K w).2.trace =
        w.trace ++ [Call.shell_fprintf "Modem is already started.\n"] ∧
      (cmd_sample_modem_resume K w).2.starting = true ∧
      (cmd_sample_modem_resume K w).2.trace.filter Call.isSession =
        w.trace.filter Call.isSession) ∧
    (w.starting = false →
      (cmd_sample_modem_suspend K w).1 = -(K.ENOEXEC : Int) ∧
      (cmd_sample_modem_suspend K w).1 ≠ 0 ∧
      (cmd_sample_modem_suspend K w).2.trace =
        w.trace ++ [Call.shell_fprintf "Modem is already stopped.\n"] ∧
      (cmd_sample_modem_suspend K w).2.starting = false ∧
      (cmd_sample_modem_suspend K w).2.trace.filter Call.isSession =
        w.trace.filter Call.isSession) := by
  have hne := neg_enoexec_ne_zero K hE
  obtain ⟨b, t⟩ := w
  constructor
  · intro h
    simp only at h
    subst h
    rw [resume_running]
    exact ⟨rfl, hne, rfl, rfl, filter_session_append_fprintf t _⟩
  · intro h
    simp only at h
    subst h
    rw [suspend_stopped]
    exact ⟨rfl, hne, rfl, rfl, filter_session_append_fprintf t _⟩

/-- Witness of C1: with `ENOEXEC = 8`, `resume` on a running session and
`suspend` on a stopped one both return -8 and leave the flag as it was. -/
theorem idempotent_rejection_witness :
    0 < zephyr.ENOEXEC ∧
    (cmd_sample_modem_resume zephyr (World.mk true [])).1 = -8 ∧
    (cmd_sample_modem_resume zephyr (World.mk true [])).2.starting = true ∧
    (cmd_sample_modem_suspend zephyr (World.mk false [Call.gsm_ppp_stop])).1 = -8 ∧
    (cmd_sample_modem_suspend zephyr (World.mk false [Call.gsm_ppp_stop])).2.starting = false :=
  ⟨by decide,
   ((idempotent_rejection zephyr (by decide) (World.mk true [])).1 rfl).1,
   ((idempotent_rejection zephyr (by decide) (World.mk true [])).1 rfl).2.2.2.1,
   ((idempotent_rejection zephyr (by decide) (World.mk false [Call.gsm_ppp_stop])).2 rfl).1,
   ((idempotent_rejection zephyr (by decide) (World.mk false [Call.gsm_ppp_stop])).2 rfl).2.2.2.1⟩

/-- C2 (valid transitions).  `resume` while the flag is clear returns 0, adds
exactly the one call `gsm_ppp_start` (so one more start, no more stop) and sets
the flag; `suspend` while the flag is set returns 0, adds exactly the one call
`gsm_ppp_stop` and clears the flag; and a command returns 0 if and only if it
changes the flag. -/
theorem valid_transitions (K : BuildConfig) (hE : 0 < K.ENOEXEC) (w : World) :
    (w.starting = false →
      cmd_sample_modem_resume K w = (0, World.mk true (w.trace ++ [Call.gsm_ppp_start])) ∧
      (cmd_sample_modem_resume K w).2.trace.count Call.gsm_ppp_start =
        w.trace.count Call.gsm_ppp_start + 1 ∧
      (cmd_sample_modem_resume K w).2.trace.count Call.gsm_ppp_stop =
        w.trace.count Call.gsm_ppp_stop) ∧
    (w.starting = true →
      cmd_sample_modem_suspend K w = (0, World.mk false (w.trace ++ [Call.gsm_ppp_stop])) ∧
      (cmd_sample_modem_suspend K w).2.trace.count Call.gsm_ppp_stop =
        w.trace.count Call.gsm_ppp_stop + 1 ∧
      (cmd_sample_modem_suspend K w).2.trace.count Call.gsm_ppp_start =
        w.trace.count Call.gsm_ppp_start) ∧
    (∀ c : Cmd, (c.handler K w).1 = 0 ↔ (c.handler K w).2.starting ≠ w.starting) := by
  have hne := neg_enoexec_ne_zero K hE
  obtain ⟨b, t⟩ := w
  refine ⟨?_, ?_, ?_⟩
  · intro h
    simp only at h
    subst h
    rw [resume_stopped]
    refine ⟨rfl, ?_, ?_⟩ <;> simp [List.count_append]
  · intro h
    simp only at h
    subst h
    rw [suspend_running]
    refine ⟨rfl, ?_, ?_⟩ <;> simp [List.count_append]
  · intro c
    cases c <;> cases b <;>
      simp [Cmd.handler, resume_running, resume_stopped, suspend_running, suspend_stopped, hne]

/-- Witness of C2: from a stopped session `resume` returns 0 and the trace is the
single call `gsm_ppp_start`; `suspend` on the resulting state returns 0. -/
theorem valid_transitions_witness :
    0 < zephyr.ENOEXEC ∧
    cmd_sample_modem_resume zephyr (World.mk false []) =
      (0, World.mk true [Call.gsm_ppp_start]) ∧
    cmd_sample_modem_suspend zephyr (World.mk true [Call.gsm_ppp_start]) =
      (0, World.mk false [Call.gsm_ppp_start, Call.gsm_ppp_stop]) :=
  ⟨by decide,
   ((valid_transitions zephyr (by decide) (World.mk false [])).1 rfl).1,
   ((valid_transitions zephyr (by decide) (World.mk true [Call.gsm_ppp_start])).2.1 rfl).1⟩

/-- C3 (command sequences).  For every list of commands run from any state:
there is one return code per command; the session calls added to the trace are
exactly the calls of the commands that returned 0, in order, so their number is
the number of 0 return codes; consecutive added session calls differ (start and
stop alternate); a command equal to the one just before it returns `-ENOEXEC`,
which is not 0; and from a running session `suspend, suspend` returns
`0, -ENOEXEC`, ends stopped and adds exactly one `gsm_ppp_stop`. -/
theorem command_sequences (K : BuildConfig) (hE : 0 < K.ENOEXEC) (cs : List Cmd) (w : World) :
    (runCmds K cs w).1.length = cs.length ∧
    (runCmds K cs w).2.trace.filter Call.isSession =
      w.trace.filter Call.isSession ++ successCalls cs (runCmds K cs w).1 ∧
    ((runCmds K cs w).2.trace.filter Call.isSession).length =
      (w.trace.filter Call.isSession).length + (runCmds K cs w).1.count 0 ∧
    List.Chain' (fun a b => a ≠ b) (successCalls cs (runCmds K cs w).1) ∧
    (∀ (pre suf : List Cmd) (c : Cmd), cs = pre ++ c :: c :: suf →
      (runCmds K cs w).1[pre.length + 1]? = some (-(K.ENOEXEC : Int))) ∧
    -(K.ENOEXEC : Int) ≠ 0 ∧
    (w.starting = true →
      runCmds K [Cmd.suspend, Cmd.suspend] w =
        ([0, -(K.ENOEXEC : Int)],
          World.mk false (w.trace ++
            [Call.gsm_ppp_stop, Call.shell_fprintf "Modem is already stopped.\n"])) ∧
      (runCmds K [Cmd.suspend, Cmd.suspend] w).2.trace.count Call.gsm_ppp_stop =
        w.trace.count Call.gsm_ppp_stop + 1) := by
  have hne := neg_enoexec_ne_zero K hE
  have hs := runCmds_session K hE cs w
  refine ⟨runCmds_length K cs w, hs, ?_, successCalls_chain K hE cs w, ?_, hne, ?_⟩
  · rw [hs, List.length_append, successCalls_length]
  · intro pre suf c hcs
    subst hcs
    exact runCmds_repeat K pre suf c w
  · intro h
    obtain ⟨b, t⟩ := w
    simp only at h
    subst h
    have e : runCmds K [Cmd.suspend, Cmd.suspend] (World.mk true t) =
        ([0, -(K.ENOEXEC : Int)],
          World.mk false (t ++
            [Call.gsm_ppp_stop, Call.shell_fprintf "Modem is already stopped.\n"])) := by
      simp [runCmds, Cmd.handler, suspend_running, suspend_stopped]
    rw [e]
    refine ⟨rfl, ?_⟩
    simp [List.count_append, List.count_cons]

/-- Witness of C3: the run `suspend, suspend` from a running session with an
empty trace. -/
theorem command_sequences_witness :
    0 < zephyr.ENOEXEC ∧
    runCmds zephyr [Cmd.suspend, Cmd.suspend] (World.mk true []) =
      ([0, -8], World.mk false
        [Call.gsm_ppp_stop, Call.shell_fprintf "Modem is already stopped.\n"]) ∧
    List.Chain' (fun a b => a ≠ b)
      (successCalls [Cmd.suspend, Cmd.suspend]
        (runCmds zephyr [Cmd.suspend, Cmd.suspend] (World.mk true [])).1) :=
  ⟨by decide,
   ((command_sequences zephyr (by decide) [Cmd.suspend, Cmd.suspend]
      (World.mk true [])).2.2.2.2.2.2 rfl).1,
   (command_sequences zephyr (by decide) [Cmd.suspend, Cmd.suspend]
      (World.mk true [])).2.2.2.1⟩

/-! ## The event handler (C7) -/

theorem land_lor_left (a b : Nat) : a &&& (a ||| b) = a := by
  apply Nat.eq_of_testBit_eq
  intro i
  simp only [Nat.testBit_land, Nat.testBit_lor]
  cases a.testBit i <;> cases b.testBit i <;> rfl

theorem land_lor_right (a b : Nat) : b &&& (a ||| b) = b := by
  apply Nat.eq_of_testBit_eq
  intro i
  simp only [Nat.testBit_land, Nat.testBit_lor]
  cases a.testBit i <;> cases b.testBit i <;> rfl

theorem event_handler_connected (K : BuildConfig) (w : World) :
    event_handler K K.NET_EVENT_L4_CONNECTED w =
      w.emit (Call.printk "Network connected" []) := by
  simp [event_handler, land_lor_left]

theorem event_handler_disconnected (K : BuildConfig)
    (hCD : K.NET_EVENT_L4_CONNECTED ≠ K.NET_EVENT_L4_DISCONNECTED) (w : World) :
    event_handler K K.NET_EVENT_L4_DISCONNECTED w =
      w.emit (Call.printk "Network disconnected" []) := by
  simp [event_handler, land_lor_right, Ne.symm hCD]

theorem event_handler_other (K : BuildConfig) (ev : Nat) (w : World)
    (hC : ev ≠ K.NET_EVENT_L4_CONNECTED) (hD : ev ≠ K.NET_EVENT_L4_DISCONNECTED) :
    event_handler K ev w = w := by
  simp [event_handler, hC, hD]

theorem event_handler_spec (K : BuildConfig)
    (hCD : K.NET_EVENT_L4_CONNECTED ≠ K.NET_EVENT_L4_DISCONNECTED) (ev : Nat) (w : World) :
    event_handler K ev w =
      World.mk w.starting (w.trace ++ (specReport K ev).toList) := by
  by_cases hC : ev = K.NET_EVENT_L4_CONNECTED
  · subst hC
    rw [event_handler_connected]
    simp [specReport, World.emit]
  · by_cases hD : ev = K.NET_EVENT_L4_DISCONNECTED
    · subst hD
      rw [event_handler_disconnected K hCD]
      simp [specReport, World.emit, Ne.symm hCD]
    · rw [event_handler_other K ev w hC hD]
      simp [specReport, hC, hD]

theorem deliver_spec (K : BuildConfig)
    (hCD : K.NET_EVENT_L4_CONNECTED ≠ K.NET_EVENT_L4_DISCONNECTED)
    (events : List Nat) (w : World) :
    deliver K events w =
      World.mk w.starting (w.trace ++ events.filterMap (specReport K)) := by
  induction events generalizing w with
  | nil => simp [deliver]
  | cons ev evs ih =>
    have e : deliver K (ev :: evs) w = deliver K evs (event_handler K ev w) := rfl
    rw [e, ih, event_handler_spec K hCD]
    cases h : specReport K ev <;> simp [List.filterMap_cons, h]

/-- C7 (connectivity observation).  Provided the two event codes are non-zero
and neither equals their bitwise OR (so they differ), for every list of event
values (any natural number, in particular any 32-bit value) delivered in order:
the trace grows by exactly one "Network connected" per value equal to
`NET_EVENT_L4_CONNECTED` and one "Network disconnected" per value equal to
`NET_EVENT_L4_DISCONNECTED`, in delivery order, and the flag is untouched; every
other value leaves the state unchanged, in particular 0, the OR of the two codes
and any value with a bit outside the two codes; and delivering connect,
disconnect, connect adds the reports connected, disconnected, connected. -/
theorem connectivity_observation (K : BuildConfig)
    (hC0 : K.NET_EVENT_L4_CONNECTED ≠ 0) (hD0 : K.NET_EVENT_L4_DISCONNECTED ≠ 0)
    (hOrC : K.NET_EVENT_L4_CONNECTED ||| K.NET_EVENT_L4_DISCONNECTED ≠ K.NET_EVENT_L4_CONNECTED)
    (hOrD : K.NET_EVENT_L4_CONNECTED ||| K.NET_EVENT_L4_DISCONNECTED ≠
      K.NET_EVENT_L4_DISCONNECTED)
    (events : List Nat) (w : World) :
    (deliver K events w).trace = w.trace ++ events.filterMap (specReport K) ∧
    (deliver K events w).starting = w.starting ∧
    event_handler K K.NET_EVENT_L4_CONNECTED w =
      World.mk w.starting (w.trace ++ [Call.printk "Network connected" []]) ∧
    event_handler K K.NET_EVENT_L4_DISCONNECTED w =
      World.mk w.starting (w.trace ++ [Call.printk "Network disconnected" []]) ∧
    (∀ ev : Nat, ev ≠ K.NET_EVENT_L4_CONNECTED → ev ≠ K.NET_EVENT_L4_DISCONNECTED →
      event_handler K ev w = w) ∧
    event_handler K 0 w = w ∧
    event_handler K (K.NET_EVENT_L4_CONNECTED ||| K.NET_EVENT_L4_DISCONNECTED) w = w ∧
    (∀ ev : Nat,
      ev &&& (K.NET_EVENT_L4_CONNECTED ||| K.NET_EVENT_L4_DISCONNECTED) ≠ ev →
      event_handler K ev w = w) ∧
    deliver K [K.NET_EVENT_L4_CONNECTED, K.NET_EVENT_L4_DISCONNECTED,
        K.NET_EVENT_L4_CONNECTED] w =
      World.mk w.starting (w.trace ++
        [Call.printk "Network connected" [], Call.printk "Network disconnected" [],
         Call.printk "Network connected" []]) := by
  have hCD : K.NET_EVENT_L4_CONNECTED ≠ K.NET_EVENT_L4_DISCONNECTED := by
    intro h
    apply hOrC
    rw [← h, Nat.or_self]
  refine ⟨?_, ?_, ?_, ?_, ?_, ?_, ?_, ?_, ?_⟩
  · rw [deliver_spec K hCD]
  · rw [deliver_spec K hCD]
  · rw [event_handler_connected]; rfl
  · rw [event_handler_disconnected K hCD]; rfl
  · intro ev h1 h2
    exact event_handler_other K ev w h1 h2
  · exact event_handler_other K 0 w (Ne.symm hC0) (Ne.symm hD0)
  · exact event_handler_other K _ w hOrC hOrD
  · intro ev h
    simp [event_handler, h]
  · rw [deliver_spec K hCD]
    simp [specReport, hCD, Ne.symm hCD]

/-- Witness of C7: with the codes `0xF1140001` and `0xF1140002`, the events
connect, 0, disconnect, `0xF1140003`, connect give the three reports. -/
theorem connectivity_observation_witness :
    zephyr.NET_EVENT_L4_CONNECTED ≠ 0 ∧ zephyr.NET_EVENT_L4_DISCONNECTED ≠ 0 ∧
    (zephyr.NET_EVENT_L4_CONNECTED ||| zephyr.NET_EVENT_L4_DISCONNECTED ≠
      zephyr.NET_EVENT_L4_CONNECTED) ∧
    (zephyr.NET_EVENT_L4_CONNECTED ||| zephyr.NET_EVENT_L4_DISCONNECTED ≠
      zephyr.NET_EVENT_L4_DISCONNECTED) ∧
    (deliver zephyr [0xF1140001, 0, 0xF1140002, 0xF1140003, 0xF1140001]
        (World.mk false [])).trace =
      [Call.printk "Network connected" [], Call.printk "Network disconnected" [],
       Call.printk "Network connected" []] :=
  ⟨by decide, by decide, by decide, by decide,
   (connectivity_observation zephyr (by decide) (by decide) (by decide) (by decide)
      [0xF1140001, 0, 0xF1140002, 0xF1140003, 0xF1140001] (World.mk false [])).1⟩

/-! ## The boot procedure: the three shapes of a run of `main` -/

theorem main_sim_not_found (K : BuildConfig) (env : BootEnv) (w : World)
    (hs : env.sim_select_binding = none) :
    main K env w = (0, World.mk w.starting (w.trace ++
      [Call.device_get_binding Line.simselect,
       Call.printk "SIM: Device driver not found.\n" []])) := by
  simp [main, hs, World.emit]

theorem main_modemon_not_found (K : BuildConfig) (env : BootEnv) (w : World) (d : Nat)
    (hs : env.sim_select_binding = some d) (hm : env.modemon_binding = none) :
    main K env w = (0, World.mk w.starting (w.trace ++
      ([Call.device_get_binding Line.simselect,
        Call.gpio_pin_configure d Line.simselect GpioInit.GPIO_OUTPUT_LOW] ++
       (if env.sim_select_configure_ret < 0 then
          [Call.printk "Error setting sim pin to output mode [%d]"
            [PrintkArg.int env.sim_select_configure_ret]]
        else []) ++
       [Call.gpio_pin_set d Line.simselect 0,
        Call.device_get_binding Line.modemon,
        Call.printk "MODEM ON: Device driver not found.\n" []]))) := by
  by_cases h1 : env.sim_select_configure_ret < 0 <;>
    simp [main, main_modemon, hs, hm, World.emit, h1]

theorem main_full (K : BuildConfig) (env : BootEnv) (w : World) (d m : Nat)
    (hs : env.sim_select_binding = some d) (hm : env.modemon_binding = some m) :
    main K env w = (0, World.mk w.starting (w.trace ++
      ([Call.device_get_binding Line.simselect,
        Call.gpio_pin_configure d Line.simselect GpioInit.GPIO_OUTPUT_LOW] ++
       (if env.sim_select_configure_ret < 0 then
          [Call.printk "Error setting sim pin to output mode [%d]"
            [PrintkArg.int env.sim_select_configure_ret]]
        else []) ++
       [Call.gpio_pin_set d Line.simselect 0,
        Call.device_get_binding Line.modemon,
        Call.gpio_pin_configure m Line.modemon GpioInit.GPIO_OUTPUT_HIGH] ++
       (if env.modemon_configure_ret < 0 then
          [Call.printk "Error setting modem on pin to output mode [%d]"
            [PrintkArg.int env.modemon_configure_ret]]
        else []) ++
       [Call.gpio_pin_set m Line.modemon 1,
        Call.printk "\n\n\t\t Modem ON\n\n" [],
        Call.k_msleep 5000,
        Call.printk "Board '%s' APN '%s' UART '%s' device %p (%s)"
          [PrintkArg.str K.CONFIG_BOARD, PrintkArg.str K.CONFIG_MODEM_GSM_APN,
           PrintkArg.str K.uart_dev_name, PrintkArg.ptr K.uart_dev,
           PrintkArg.str K.gsm_dev_name],
        Call.net_mgmt_init_event_callback
          (K.NET_EVENT_L4_CONNECTED ||| K.NET_EVENT_L4_DISCONNECTED),
        Call.net_mgmt_add_event_callback]))) := by
  by_cases h1 : env.sim_select_configure_ret < 0 <;>
    by_cases h2 : env.modemon_configure_ret < 0 <;>
    simp [main, main_modemon, hs, hm, World.emit, h1, h2]

theorem boot_eq (K : BuildConfig) (env : BootEnv) :
    boot K env = (main K env (World.mk K.CONFIG_GSM_PPP_AUTOSTART [])).2 := rfl

/-! ## Ordering of the boot procedure (C4) -/

theorem pair_not_sublist {α : Type} (a c : α) (pre post : List α)
    (ha : a ∉ pre) (hc : c ∉ post) : ¬ List.Sublist [a, c] (pre ++ a :: post) := by
  induction pre with
  | nil =>
    intro h
    cases h with
    | cons _ h1 => exact hc (h1.subset (by simp))
    | cons₂ _ h1 => exact hc (h1.subset (by simp))
  | cons x pre ih =>
    intro h
    have hx : a ≠ x := fun e => ha (by simp [e])
    have ha2 : a ∉ pre := fun e => ha (by simp [e])
    cases h with
    | cons _ h1 => exact ih ha2 h1
    | cons₂ _ h1 => exact hx rfl

/-- C4 (sequencing invariant).  For every run of `main` from the initial state,
whatever the bindings and the GPIO results, the GPIO calls and delays of the
trace, in order, are exactly: nothing when the SIM-select device is not bound;
configure SIM-select (output low) then set SIM-select to 0 when only the
modem-enable device is not bound; and otherwise configure SIM-select, set
SIM-select to 0, configure modem-enable (output high), set modem-enable to 1,
`k_msleep(5000)`.  Hence every configure or set on the modem-enable line comes
after a configure of the SIM-select line followed by a set of that line to 0;
the SIM-select line is only ever set to 0 and the modem-enable line only to 1;
the only delay is `k_msleep(5000)`, it occurs at most once, and when it occurs
a set of SIM-select to 0 and then a set of modem-enable to 1 come before it;
no GPIO call comes after the delay; and no SIM-select call comes after a
modem-enable call. -/
theorem sequencing_invariant (K : BuildConfig) (env : BootEnv) :
    (boot K env).trace.filter (fun c => c.isGpio || c.isDelay) =
      (match env.sim_select_binding, env.modemon_binding with
        | none, _ => []
        | some d, none =>
          [Call.gpio_pin_configure d Line.simselect GpioInit.GPIO_OUTPUT_LOW,
           Call.gpio_pin_set d Line.simselect 0]
        | some d, some m =>
          [Call.gpio_pin_configure d Line.simselect GpioInit.GPIO_OUTPUT_LOW,
           Call.gpio_pin_set d Line.simselect 0,
           Call.gpio_pin_configure m Line.modemon GpioInit.GPIO_OUTPUT_HIGH,
           Call.gpio_pin_set m Line.modemon 1,
           Call.k_msleep 5000]) ∧
    (∀ c ∈ (boot K env).trace, c.isGpioOn Line.modemon = true →
      ∃ d : Nat, List.Sublist
        [Call.gpio_pin_configure d Line.simselect GpioInit.GPIO_OUTPUT_LOW,
         Call.gpio_pin_set d Line.simselect 0, c] (boot K env).trace) ∧
    (∀ (d : Nat) (v : Int), Call.gpio_pin_set d Line.simselect v ∈ (boot K env).trace → v = 0) ∧
    (∀ (d : Nat) (v : Int), Call.gpio_pin_set d Line.modemon v ∈ (boot K env).trace → v = 1) ∧
    (∀ ms : Int, Call.k_msleep ms ∈ (boot K env).trace → ms = 5000) ∧
    (boot K env).trace.count (Call.k_msleep 5000) ≤ 1 ∧
    (Call.k_msleep 5000 ∈ (boot K env).trace →
      ∃ d m : Nat, List.Sublist
        [Call.gpio_pin_set d Line.simselect 0, Call.gpio_pin_set m Line.modemon 1,
         Call.k_msleep 5000] (boot K env).trace) ∧
    (∀ c : Call, c.isGpio = true →
      ¬ List.Sublist [Call.k_msleep 5000, c] (boot K env).trace) ∧
    (∀ a b : Call, a.isGpioOn Line.modemon = true → b.isGpioOn Line.simselect = true →
      ¬ List.Sublist [a, b] (boot K env).trace) := by
  rw [boot_eq]
  cases hs : env.sim_select_binding with
  | none =>
    rw [main_sim_not_found K env _ hs]
    refine ⟨?_, ?_, ?_, ?_, ?_, ?_, ?_, ?_, ?_⟩
    · rfl
    · simp [Call.isGpioOn]
    · simp
    · simp
    · simp
    · simp
    · simp
    · intro c _ h
      have hmem := h.subset (List.mem_cons_self _ _)
      simp at hmem
    · intro a b ha _ h
      have hmem := h.subset (List.mem_cons_self _ _)
      simp only [List.nil_append, List.mem_cons, List.mem_singleton, List.not_mem_nil,
        or_false] at hmem
      rcases hmem with rfl | rfl <;> simp [Call.isGpioOn] at ha
  | some d =>
    cases hm : env.modemon_binding with
    | none =>
      rw [main_modemon_not_found K env _ d hs hm]
      by_cases h1 : env.sim_select_configure_ret < 0 <;>
      · simp only [h1, if_true, if_false, List.nil_append, List.append_nil, List.cons_append]
        refine ⟨?_, ?_, ?_, ?_, ?_, ?_, ?_, ?_, ?_⟩
        · rfl
        · simp [Call.isGpioOn]
        · simp
        · simp
        · simp
        · simp
        · simp
        · intro c _ h
          have hmem := h.subset (List.mem_cons_self _ _)
          simp at hmem
        · intro a b ha _ h
          have hmem := h.subset (List.mem_cons_self _ _)
          simp only [List.mem_cons, List.mem_singleton, List.not_mem_nil, or_false] at hmem
          casesm* _ ∨ _ <;> subst a <;> simp [Call.isGpioOn] at ha
    | some m =>
      rw [main_full K env _ d m hs hm]
      by_cases h1 : env.sim_select_configure_ret < 0 <;>
      by_cases h2 : env.modemon_configure_ret < 0 <;>
      · simp only [h1, h2, if_true, if_false, List.nil_append, List.append_nil,
          List.cons_append]
        refine ⟨?_, ?_, ?_, ?_, ?_, ?_, ?_, ?_, ?_⟩
        · rfl
        · intro c hc hg
          refine ⟨d, ?_⟩
          simp only [List.mem_cons, List.mem_singleton, List.not_mem_nil, or_false] at hc
          casesm* _ ∨ _ <;> subst c <;>
            first
            | (simp [Call.isGpioOn] at hg; done)
            | (repeat (first
                | exact List.nil_sublist _
                | apply List.Sublist.cons₂
                | apply List.Sublist.cons))
        · simp
        · simp
        · simp
        · simp
        · intro _
          refine ⟨d, m, ?_⟩
          repeat (first
            | exact List.nil_sublist _
            | apply List.Sublist.cons₂
            | apply List.Sublist.cons)
        · intro c hc h
          have hf := h.filter (fun x => x.isDelay || x.isGpio)
          have e1 : List.filter (fun x => x.isDelay || x.isGpio) [Call.k_msleep 5000, c] =
              [Call.k_msleep 5000, c] := by
            simp [List.filter_cons, hc, Call.isDelay]
          rw [e1] at hf
          exact pair_not_sublist (Call.k_msleep 5000) c
            [Call.gpio_pin_configure d Line.simselect GpioInit.GPIO_OUTPUT_LOW,
             Call.gpio_pin_set d Line.simselect 0,
             Call.gpio_pin_configure m Line.modemon GpioInit.GPIO_OUTPUT_HIGH,
             Call.gpio_pin_set m Line.modemon 1] [] (by simp) (by simp) hf
        · intro a b ha hb h
          have hf := h.filter (fun x => x.isGpio)
          have ha1 : a.isGpio = true := by simp [Call.isGpio, ha]
          have hb1 : b.isGpio = true := by simp [Call.isGpio, hb]
          have e1 : List.filter (fun x => x.isGpio) [a, b] = [a, b] := by
            simp [List.filter_cons, ha1, hb1]
          rw [e1] at hf
          have hf2 : List.Sublist [a, b]
              [Call.gpio_pin_configure d Line.simselect GpioInit.GPIO_OUTPUT_LOW,
               Call.gpio_pin_set d Line.simselect 0,
               Call.gpio_pin_configure m Line.modemon GpioInit.GPIO_OUTPUT_HIGH,
               Call.gpio_pin_set m Line.modemon 1] := hf
          have hbm : ∀ x ∈ [Call.gpio_pin_configure m Line.modemon GpioInit.GPIO_OUTPUT_HIGH,
              Call.gpio_pin_set m Line.modemon 1], x ≠ b := by
            intro x hx e
            subst e
            simp only [List.mem_cons, List.mem_singleton, List.not_mem_nil, or_false] at hx
            rcases hx with rfl | rfl <;> simp [Call.isGpioOn] at hb
          cases hf2 with
          | cons _ h3 =>
            cases h3 with
            | cons _ h4 =>
              cases h4 with
              | cons _ h5 =>
                have hm5 := h5.subset (List.mem_cons_of_mem _ (List.mem_cons_self _ _))
                exact hbm b (List.mem_cons_of_mem _ hm5) rfl
              | cons₂ _ h5 =>
                have hm5 := h5.subset (List.mem_cons_self _ _)
                exact hbm b (List.mem_cons_of_mem _ hm5) rfl
            | cons₂ _ h4 => simp [Call.isGpioOn] at ha
          | cons₂ _ h3 => simp [Call.isGpioOn] at ha

/-! ## Device not found (C9) -/

/-- C9 (device not found aborts boot).  If the SIM-select device or the
modem-enable device is not bound, `main` returns 0 having made no configure or
set on the modem-enable line, no delay and no callback registration, and its
last call is the "not found" message; when it is the SIM-select device that is
not bound the whole trace is the binding attempt and that message, so no GPIO
call is made on any line. -/
theorem device_not_found_aborts (K : BuildConfig) (env : BootEnv)
    (h : env.sim_select_binding = none ∨ env.modemon_binding = none) :
    (main K env (initial K)).1 = 0 ∧
    (∀ c ∈ (boot K env).trace,
      c.isGpioOn Line.modemon = false ∧ c.isDelay = false ∧ c.isRegistration = false) ∧
    (env.sim_select_binding = none →
      (boot K env).trace =
        [Call.device_get_binding Line.simselect,
         Call.printk "SIM: Device driver not found.\n" []] ∧
      ∀ c ∈ (boot K env).trace, c.isGpio = false) ∧
    (∀ d : Nat, env.sim_select_binding = some d →
      (boot K env).trace.getLast? =
        some (Call.printk "MODEM ON: Device driver not found.\n" [])) := by
  rw [boot_eq]
  show (main K env (World.mk K.CONFIG_GSM_PPP_AUTOSTART [])).1 = 0 ∧ _
  cases hs : env.sim_select_binding with
  | none =>
    rw [main_sim_not_found K env _ hs]
    simp [Call.isGpio, Call.isGpioOn, Call.isDelay, Call.isRegistration]
  | some d =>
    have hm : env.modemon_binding = none := by
      rcases h with h | h
      · rw [hs] at h; cases h
      · exact h
    rw [main_modemon_not_found K env _ d hs hm]
    by_cases h1 : env.sim_select_configure_ret < 0 <;>
      simp [h1, Call.isGpioOn, Call.isDelay, Call.isRegistration]

/-- Witness of C9: the two boots with an unbound device. -/
theorem device_not_found_aborts_witness :
    (envSimNotFound.sim_select_binding = none ∨ envSimNotFound.modemon_binding = none) ∧
    (envModemonNotFound.sim_select_binding = none ∨
      envModemonNotFound.modemon_binding = none) ∧
    (main zephyr envSimNotFound (initial zephyr)).1 = 0 ∧
    (boot zephyr envSimNotFound).trace =
      [Call.device_get_binding Line.simselect,
       Call.printk "SIM: Device driver not found.\n" []] ∧
    (boot zephyr envModemonNotFound).trace.getLast? =
      some (Call.printk "MODEM ON: Device driver not found.\n" []) :=
  ⟨Or.inl rfl, Or.inr rfl,
   (device_not_found_aborts zephyr envSimNotFound (Or.inl rfl)).1,
   ((device_not_found_aborts zephyr envSimNotFound (Or.inl rfl)).2.2.1 rfl).1,
   (device_not_found_aborts zephyr envModemonNotFound (Or.inr rfl)).2.2.2 1 rfl⟩

/-! ## Configuration failure (C5) -/

/-- C5, counterexample.  Configuring the SIM-select pin returns -5, yet `main`
goes on: after the error message the SIM-select line is driven, the modem-enable
line is bound, configured and driven, the delay is taken, the callback is
registered and `main` returns 0. -/
theorem fail_fast_counterexample :
    envSimConfigureFails.sim_select_configure_ret < 0 ∧
    main zephyr envSimConfigureFails (initial zephyr) =
      (0, World.mk true
        [Call.device_get_binding Line.simselect,
         Call.gpio_pin_configure 1 Line.simselect GpioInit.GPIO_OUTPUT_LOW,
         Call.printk "Error setting sim pin to output mode [%d]" [PrintkArg.int (-5)],
         Call.gpio_pin_set 1 Line.simselect 0,
         Call.device_get_binding Line.modemon,
         Call.gpio_pin_configure 2 Line.modemon GpioInit.GPIO_OUTPUT_HIGH,
         Call.gpio_pin_set 2 Line.modemon 1,
         Call.printk "\n\n\t\t Modem ON\n\n" [],
         Call.k_msleep 5000,
         Call.printk "Board '%s' APN '%s' UART '%s' device %p (%s)"
           [PrintkArg.str "board", PrintkArg.str "internet", PrintkArg.str "UART_1",
            PrintkArg.ptr 1, PrintkArg.str "modem_gsm"],
         Call.net_mgmt_init_event_callback 0xF1140003,
         Call.net_mgmt_add_event_callback]) ∧
    Call.gpio_pin_set 1 Line.simselect 0 ∈ (boot zephyr envSimConfigureFails).trace ∧
    Call.gpio_pin_configure 2 Line.modemon GpioInit.GPIO_OUTPUT_HIGH ∈
      (boot zephyr envSimConfigureFails).trace ∧
    Call.k_msleep 5000 ∈ (boot zephyr envSimConfigureFails).trace ∧
    Call.net_mgmt_add_event_callback ∈ (boot zephyr envSimConfigureFails).trace := by
  refine ⟨by decide, ?_, ?_, ?_, ?_, ?_⟩
  · rfl
  · rw [boot_eq, main_full zephyr envSimConfigureFails _ 1 2 rfl rfl]; simp
  · rw [boot_eq, main_full zephyr envSimConfigureFails _ 1 2 rfl rfl]; simp
  · rw [boot_eq, main_full zephyr envSimConfigureFails _ 1 2 rfl rfl]; simp
  · rw [boot_eq, main_full zephyr envSimConfigureFails _ 1 2 rfl rfl]; simp

/-- C5, amended.  When the SIM-select device is bound, `main` returns 0 and its
calls are: the binding, the configure of SIM-select, the error message carrying
the return value exactly when that value is negative, the set of SIM-select to
0, the binding of modem-enable, and then either the "not found" message, or the
configure of modem-enable, its error message exactly when its return value is
negative, the set of modem-enable to 1, the delay and the callback
registration.  A configure failure is reported and does not stop the
sequence. -/
theorem configure_failure_reported (K : BuildConfig) (env : BootEnv) (w : World) (d : Nat)
    (hs : env.sim_select_binding = some d) :
    (main K env w).1 = 0 ∧
    (main K env w).2.starting = w.starting ∧
    (env.modemon_binding = none →
      (main K env w).2.trace = w.trace ++
        ([Call.device_get_binding Line.simselect,
          Call.gpio_pin_configure d Line.simselect GpioInit.GPIO_OUTPUT_LOW] ++
         (if env.sim_select_configure_ret < 0 then
            [Call.printk "Error setting sim pin to output mode [%d]"
              [PrintkArg.int env.sim_select_configure_ret]]
          else []) ++
         [Call.gpio_pin_set d Line.simselect 0,
          Call.device_get_binding Line.modemon,
          Call.printk "MODEM ON: Device driver not found.\n" []])) ∧
    (∀ m : Nat, env.modemon_binding = some m →
      (main K env w).2.trace = w.trace ++
        ([Call.device_get_binding Line.simselect,
          Call.gpio_pin_configure d Line.simselect GpioInit.GPIO_OUTPUT_LOW] ++
         (if env.sim_select_configure_ret < 0 then
            [Call.printk "Error setting sim pin to output mode [%d]"
              [PrintkArg.int env.sim_select_configure_ret]]
          else []) ++
         [Call.gpio_pin_set d Line.simselect 0,
          Call.device_get_binding Line.modemon,
          Call.gpio_pin_configure m Line.modemon GpioInit.GPIO_OUTPUT_HIGH] ++
         (if env.modemon_configure_ret < 0 then
            [Call.printk "Error setting modem on pin to output mode [%d]"
              [PrintkArg.int env.modemon_configure_ret]]
          else []) ++
         [Call.gpio_pin_set m Line.modemon 1,
          Call.printk "\n\n\t\t Modem ON\n\n" [],
          Call.k_msleep 5000,
          Call.printk "Board '%s' APN '%s' UART '%s' device %p (%s)"
            [PrintkArg.str K.CONFIG_BOARD, PrintkArg.str K.CONFIG_MODEM_GSM_APN,
             PrintkArg.str K.uart_dev_name, PrintkArg.ptr K.uart_dev,
             PrintkArg.str K.gsm_dev_name],
          Call.net_mgmt_init_event_callback
            (K.NET_EVENT_L4_CONNECTED ||| K.NET_EVENT_L4_DISCONNECTED),
          Call.net_mgmt_add_event_callback])) := by
  cases hm : env.modemon_binding with
  | none =>
    rw [main_modemon_not_found K env w d hs hm]
    refine ⟨rfl, rfl, ?_, ?_⟩
    · intro _
      rfl
    · intro m h
      cases h
  | some m =>
    rw [main_full K env w d m hs hm]
    refine ⟨rfl, rfl, ?_, ?_⟩
    · intro h
      cases h
    · intro m1 h
      cases h
      rfl

/-- Witness of C5 (amended): the boot whose modem-enable configure returns -5. -/
theorem configure_failure_reported_witness :
    envModemonConfigureFails.sim_select_binding = some 1 ∧
    (main zephyr envModemonConfigureFails (initial zephyr)).1 = 0 ∧
    (main zephyr envModemonConfigureFails (initial zephyr)).2.trace =
      [Call.device_get_binding Line.simselect,
       Call.gpio_pin_configure 1 Line.simselect GpioInit.GPIO_OUTPUT_LOW,
       Call.gpio_pin_set 1 Line.simselect 0,
       Call.device_get_binding Line.modemon,
       Call.gpio_pin_configure 2 Line.modemon GpioInit.GPIO_OUTPUT_HIGH,
       Call.printk "Error setting modem on pin to output mode [%d]" [PrintkArg.int (-5)],
       Call.gpio_pin_set 2 Line.modemon 1,
       Call.printk "\n\n\t\t Modem ON\n\n" [],
       Call.k_msleep 5000,
       Call.printk "Board '%s' APN '%s' UART '%s' device %p (%s)"
         [PrintkArg.str "board", PrintkArg.str "internet", PrintkArg.str "UART_1",
          PrintkArg.ptr 1, PrintkArg.str "modem_gsm"],
       Call.net_mgmt_init_event_callback 0xF1140003,
       Call.net_mgmt_add_event_callback] :=
  ⟨rfl,
   (configure_failure_reported zephyr envModemonConfigureFails (initial zephyr) 1 rfl).1,
   (configure_failure_reported zephyr envModemonConfigureFails (initial zephyr) 1 rfl).2.2.2
     2 rfl⟩

/-! ## Boot and the session (C6, C8) -/

theorem runCmds_trace_irrel (K : BuildConfig) (cs : List Cmd) (b : Bool) (t : List Call) :
    runCmds K cs (World.mk b t) =
      ((runCmds K cs (World.mk b [])).1,
        World.mk (runCmds K cs (World.mk b [])).2.starting
          (t ++ (runCmds K cs (World.mk b [])).2.trace)) := by
  induction cs generalizing b t with
  | nil => simp [runCmds]
  | cons c cs ih =>
    rw [runCmds_cons, runCmds_cons]
    cases c <;> cases b
    · simp only [Cmd.handler, resume_stopped, List.nil_append]
      rw [ih true (t ++ [Call.gsm_ppp_start]), ih true [Call.gsm_ppp_start]]
      simp
    · simp only [Cmd.handler, resume_running, List.nil_append]
      rw [ih true (t ++ [Call.shell_fprintf "Modem is already started.\n"]),
        ih true [Call.shell_fprintf "Modem is already started.\n"]]
      simp
    · simp only [Cmd.handler, suspend_stopped, List.nil_append]
      rw [ih false (t ++ [Call.shell_fprintf "Modem is already stopped.\n"]),
        ih false [Call.shell_fprintf "Modem is already stopped.\n"]]
      simp
    · simp only [Cmd.handler, suspend_running, List.nil_append]
      rw [ih false (t ++ [Call.gsm_ppp_stop]), ih false [Call.gsm_ppp_stop]]
      simp

theorem boot_starting (K : BuildConfig) (env : BootEnv) :
    (boot K env).starting = K.CONFIG_GSM_PPP_AUTOSTART := by
  rw [boot_eq]
  cases hs : env.sim_select_binding with
  | none => rw [main_sim_not_found K env _ hs]
  | some d =>
    cases hm : env.modemon_binding with
    | none => rw [main_modemon_not_found K env _ d hs hm]
    | some m => rw [main_full K env _ d m hs hm]

theorem boot_no_session_call (K : BuildConfig) (env : BootEnv) :
    (boot K env).trace.filter Call.isSession = [] := by
  rw [boot_eq]
  cases hs : env.sim_select_binding with
  | none =>
    rw [main_sim_not_found K env _ hs]
    simp [Call.isSession]
  | some d =>
    cases hm : env.modemon_binding with
    | none =>
      rw [main_modemon_not_found K env _ d hs hm]
      by_cases h1 : env.sim_select_configure_ret < 0 <;> simp [h1, Call.isSession]
    | some m =>
      rw [main_full K env _ d m hs hm]
      by_cases h1 : env.sim_select_configure_ret < 0 <;>
        by_cases h2 : env.modemon_configure_ret < 0 <;> simp [h1, h2, Call.isSession]

theorem count_eq_zero_of_filter_session (t : List Call) (c : Call) (hc : c.isSession = true)
    (h : t.filter Call.isSession = []) : t.count c = 0 := by
  rw [List.count_eq_zero]
  intro hmem
  have : c ∈ t.filter Call.isSession := List.mem_filter.mpr ⟨hmem, hc⟩
  rw [h] at this
  cases this

/-- C6, counterexample.  The SIM-select device is not bound, so boot stops at
once; with autostart disabled a later `resume` returns 0 and calls
`gsm_ppp_start`, and with autostart enabled `suspend` then `resume` does too. -/
theorem boot_fatal_counterexample :
    envSimNotFound.sim_select_binding = none ∧
    runCmds zephyrNoAutostart [Cmd.resume] (boot zephyrNoAutostart envSimNotFound) =
      ([0], World.mk true
        [Call.device_get_binding Line.simselect,
         Call.printk "SIM: Device driver not found.\n" [],
         Call.gsm_ppp_start]) ∧
    runCmds zephyr [Cmd.suspend, Cmd.resume] (boot zephyr envSimNotFound) =
      ([0, 0], World.mk true
        [Call.device_get_binding Line.simselect,
         Call.printk "SIM: Device driver not found.\n" [],
         Call.gsm_ppp_stop,
         Call.gsm_ppp_start]) :=
  ⟨rfl, rfl, rfl⟩

/-- C6, amended.  `main` itself makes no call to `gsm_ppp_start` or
`gsm_ppp_stop`, whatever the bindings and GPIO results; and the commands run
after boot do not depend on how boot went: their return codes, the final flag
and the session calls are those of the same commands run from the initial
state, so `resume` calls `gsm_ppp_start` exactly when the flag is clear. -/
theorem boot_issues_no_session_call (K : BuildConfig) (env : BootEnv) (cs : List Cmd) :
    (boot K env).trace.filter Call.isSession = [] ∧
    (runCmds K cs (boot K env)).1 = (runCmds K cs (initial K)).1 ∧
    (runCmds K cs (boot K env)).2.starting = (runCmds K cs (initial K)).2.starting ∧
    (runCmds K cs (boot K env)).2.trace.filter Call.isSession =
      (runCmds K cs (initial K)).2.trace.filter Call.isSession ∧
    (∀ w : World, (cmd_sample_modem_resume K w).2.trace.count Call.gsm_ppp_start =
      w.trace.count Call.gsm_ppp_start + (if w.starting then 0 else 1)) := by
  have hb := boot_no_session_call K env
  have hst := boot_starting K env
  have e : boot K env = World.mk K.CONFIG_GSM_PPP_AUTOSTART (boot K env).trace := by
    rw [← hst]
  have hi : initial K = World.mk K.CONFIG_GSM_PPP_AUTOSTART [] := rfl
  refine ⟨hb, ?_, ?_, ?_, ?_⟩
  · rw [e, runCmds_trace_irrel, hi]
  · rw [e, runCmds_trace_irrel, hi]
  · rw [e, runCmds_trace_irrel, hi]
    simp only [List.filter_append]
    rw [hb, List.nil_append]
  · intro w
    obtain ⟨b, t⟩ := w
    cases b
    · rw [resume_stopped]; simp [List.count_append]
    · rw [resume_running]; simp [List.count_append]

/-- C8, counterexample.  With autostart enabled the flag is set after a boot
whose SIM-select device is not bound; and after a boot in which both devices are
bound and configured the trace holds no call to `gsm_ppp_start`. -/
theorem autostart_counterexample :
    zephyr.CONFIG_GSM_PPP_AUTOSTART = true ∧
    envSimNotFound.sim_select_binding = none ∧
    (boot zephyr envSimNotFound).starting = true ∧
    (boot zephyr envAllOk).starting = true ∧
    (boot zephyr envAllOk).trace.count Call.gsm_ppp_start = 0 ∧
    (boot zephyr envAllOk).trace.getLast? = some Call.net_mgmt_add_event_callback :=
  ⟨rfl, rfl, rfl, rfl,
   count_eq_zero_of_filter_session _ _ rfl (boot_no_session_call zephyr envAllOk), rfl⟩

/-- C8, amended.  After boot the flag equals the autostart setting, whatever the
bindings and GPIO results: it is set if and only if autostart is enabled, and
clear when autostart is disabled even if the power-up sequence succeeded; boot
makes no call to `gsm_ppp_start` and `main` returns 0.  In particular with
autostart enabled, both devices bound and both configures non-negative, `main`
returns 0 with the flag set, the trace being the full power-up sequence followed
by the callback registration. -/
theorem boot_session_state (K : BuildConfig) (env : BootEnv) :
    (boot K env).starting = K.CONFIG_GSM_PPP_AUTOSTART ∧
    ((boot K env).starting = true ↔ K.CONFIG_GSM_PPP_AUTOSTART = true) ∧
    (K.CONFIG_GSM_PPP_AUTOSTART = false → (boot K env).starting = false) ∧
    (boot K env).trace.count Call.gsm_ppp_start = 0 ∧
    (main K env (initial K)).1 = 0 ∧
    (∀ d m : Nat, env.sim_select_binding = some d → env.modemon_binding = some m →
      0 ≤ env.sim_select_configure_ret → 0 ≤ env.modemon_configure_ret →
      K.CONFIG_GSM_PPP_AUTOSTART = true →
      main K env (initial K) =
        (0, World.mk true
          [Call.device_get_binding Line.simselect,
           Call.gpio_pin_configure d Line.simselect GpioInit.GPIO_OUTPUT_LOW,
           Call.gpio_pin_set d Line.simselect 0,
           Call.device_get_binding Line.modemon,
           Call.gpio_pin_configure m Line.modemon GpioInit.GPIO_OUTPUT_HIGH,
           Call.gpio_pin_set m Line.modemon 1,
           Call.printk "\n\n\t\t Modem ON\n\n" [],
           Call.k_msleep 5000,
           Call.printk "Board '%s' APN '%s' UART '%s' device %p (%s)"
             [PrintkArg.str K.CONFIG_BOARD, PrintkArg.str K.CONFIG_MODEM_GSM_APN,
              PrintkArg.str K.uart_dev_name, PrintkArg.ptr K.uart_dev,
              PrintkArg.str K.gsm_dev_name],
           Call.net_mgmt_init_event_callback
             (K.NET_EVENT_L4_CONNECTED ||| K.NET_EVENT_L4_DISCONNECTED),
           Call.net_mgmt_add_event_callback])) := by
  have hst := boot_starting K env
  refine ⟨hst, ?_, ?_, ?_, ?_, ?_⟩
  · rw [hst]
  · intro h
    rw [hst, h]
  · exact count_eq_zero_of_filter_session _ _ rfl (boot_no_session_call K env)
  · cases hs : env.sim_select_binding with
    | none => rw [main_sim_not_found K env _ hs]
    | some d =>
      cases hm : env.modemon_binding with
      | none => rw [main_modemon_not_found K env _ d hs hm]
      | some m => rw [main_full K env _ d m hs hm]
  · intro d m hs hm h1 h2 hA
    rw [main_full K env _ d m hs hm]
    have n1 : ¬ env.sim_select_configure_ret < 0 := by omega
    have n2 : ¬ env.modemon_configure_ret < 0 := by omega
    simp [n1, n2, initial, hA]

/-- Witness of C8 (amended): with autostart enabled the flag is set after a boot
whose SIM-select device is not bound; with autostart disabled it is clear after
a boot in which everything succeeded; and the successful boot with autostart
enabled ends with the flag set and the callback registered. -/
theorem boot_session_state_witness :
    (boot zephyr envSimNotFound).starting = true ∧
    (boot zephyrNoAutostart envAllOk).starting = false ∧
    (boot zephyr envAllOk).trace.count Call.gsm_ppp_start = 0 ∧
    main zephyr envAllOk (initial zephyr) =
      (0, World.mk true
        [Call.device_get_binding Line.simselect,
         Call.gpio_pin_configure 1 Line.simselect GpioInit.GPIO_OUTPUT_LOW,
         Call.gpio_pin_set 1 Line.simselect 0,
         Call.device_get_binding Line.modemon,
         Call.gpio_pin_configure 2 Line.modemon GpioInit.GPIO_OUTPUT_HIGH,
         Call.gpio_pin_set 2 Line.modemon 1,
         Call.printk "\n\n\t\t Modem ON\n\n" [],
         Call.k_msleep 5000,
         Call.printk "Board '%s' APN '%s' UART '%s' device %p (%s)"
           [PrintkArg.str "board", PrintkArg.str "internet", PrintkArg.str "UART_1",
            PrintkArg.ptr 1, PrintkArg.str "modem_gsm"],
         Call.net_mgmt_init_event_callback 0xF1140003,
         Call.net_mgmt_add_event_callback]) :=
  ⟨(boot_session_state zephyr envSimNotFound).2.1.mpr rfl,
   (boot_session_state zephyrNoAutostart envAllOk).2.2.1 rfl,
   (boot_session_state zephyr envAllOk).2.2.2.1,
   (boot_session_state zephyr envAllOk).2.2.2.2.2 1 2 rfl rfl (by decide) (by decide) rfl⟩

end GsmModem
